import Mathlib

/-!
Verification development for the dataset-caching core of `openml/datasets/dataset.py`.

The Python source is shallowly embedded below.  Machine floats (numpy
`float32`/`float64`) are modelled by exact rationals; the dataset values that
flow through the modelled code paths (small categorical codes and float32 cell
values) are exactly representable, so the exact model is faithful there.
Python exceptions are modelled with `Except PyErr`.
-/

deriving instance DecidableEq for Except

namespace OpenML

/-- Python-level exception kinds raised by the embedded code.
`notImplemented` carries the target-column count that the source interpolates
into the `NotImplementedError` message. -/
inductive PyErr
  | typeError
  | valueError
  | indexError
  | eofError
  | fileNotFound
  | notImplemented (numTargets : Nat)
  | pyOpenMLError
  deriving DecidableEq

/-- A single cell of a parsed dataset: Python `None`, float NaN, int, float
(exact rational model), string, or bool (the labels of boolean-collapsed
nominal columns). -/
inductive Cell
  | cNone
  | cNan
  | cInt (n : Int)
  | cFloat (q : ℚ)
  | cStr (s : String)
  | cBool (b : Bool)
  deriving DecidableEq

/-- Decimal digits to a natural number; `none` if empty or non-digit. -/
def digitsToNat : List Char → Option Nat
  | [] => none
  | cs =>
    if cs.all Char.isDigit then
      some (cs.foldl (fun acc c => acc * 10 + (c.toNat - '0'.toNat)) 0)
    else none

/-- Python `int(s)` on a string: optional sign followed by decimal digits
(whitespace trimming not modelled); anything else raises `ValueError`. -/
def pyStrToInt (s : String) : Option Int :=
  match s.data with
  | '-' :: rest => (digitsToNat rest).map (fun n => -(n : Int))
  | '+' :: rest => (digitsToNat rest).map (fun n => (n : Int))
  | cs => (digitsToNat cs).map (fun n => (n : Int))

/-- Python `int(x)` on a cell: ints pass through, bools map to 0/1,
`None` raises `TypeError`, NaN raises `ValueError`, and strings parse as
decimal integers or raise `ValueError`. -/
def pyIntCell : Cell → Except PyErr Int
  | .cInt n => .ok n
  | .cBool b => .ok (if b then 1 else 0)
  | .cFloat q => if q.den = 1 then .ok q.num else .ok (q.num / (q.den : Int))
  | .cNan => .error .valueError
  | .cNone => .error .typeError
  | .cStr s =>
    match pyStrToInt s with
    | some n => .ok n
    | none => .error .valueError

/-- Python list indexing `l[n]`: negative indices count from the end,
anything out of range raises `IndexError`. -/
def pyListGet {α : Type} (l : List α) (n : Int) : Except PyErr α :=
  let i : Int := if n < 0 then n + (l.length : Int) else n
  if 0 ≤ i then
    match l.get? i.toNat with
    | some a => .ok a
    | none => .error .indexError
  else .error .indexError

/-- Python `max` over a list of naturals: raises `ValueError` on an empty
list, as `max(X[1])` would in `_parse_data_from_arff`. -/
def pyMaxNat (l : List Nat) : Except PyErr Nat :=
  match l with
  | [] => .error .valueError
  | x :: xs => .ok (xs.foldl max x)

/-- Python `str.lower()` (ASCII). -/
def pyLower (s : String) : String :=
  String.mk (s.data.map Char.toLower)

/-- Python `str.capitalize()` (ASCII): first character upper-cased, the rest
lower-cased. -/
def pyCapitalize (s : String) : String :=
  match s.data with
  | [] => s
  | c :: rest => String.mk (Char.toUpper c :: rest.map Char.toLower)

/-- Python `target.split(',')`. -/
def splitCharsOn (sep : Char) : List Char → List (List Char)
  | [] => [[]]
  | c :: rest =>
    let r := splitCharsOn sep rest
    if c = sep then [] :: r
    else
      match r with
      | [] => [[c]]
      | h :: t => (c :: h) :: t

/-- Python `s.split(',')` as used on the `target` argument of `get_data`. -/
def pySplitComma (s : String) : List String :=
  (splitCharsOn ',' s.data).map String.mk

/-- `_unpack_categories` (dataset.py lines 559-570), body of the `for` loop:
each entry is converted with `int(x)` and looked up in the ordered label list;
`TypeError`/`ValueError` from the conversion are caught and become NaN, while
an `IndexError` from the lookup propagates out of the loop.  The resulting
values are wrapped into a `pd.Categorical` series by the caller (modelled as
the `categories` field of `Column`). -/
def unpackCol (categories : List Cell) : List Cell → Except PyErr (List Cell)
  | [] => .ok []
  | x :: rest =>
    let v : Except PyErr Cell :=
      match pyIntCell x with
      | .ok n => pyListGet categories n
      | .error .typeError => .ok Cell.cNan
      | .error .valueError => .ok Cell.cNan
      | .error e => .error e
    match v with
    | .error e => .error e
    | .ok c =>
      match unpackCol categories rest with
      | .error e => .error e
      | .ok cs => .ok (c :: cs)

/-- `_unpack_categories` applied to a whole series. -/
def unpackCategories (series categories : List Cell) : Except PyErr (List Cell) :=
  unpackCol categories series

/-- Declared ARFF attribute type as produced by the decoder: a primitive tag
or an explicit list of nominal labels. -/
inductive ArffType
  | integer
  | real
  | numeric
  | string
  | nominal (labels : List String)
  deriving DecidableEq

/-- Result of one iteration of the attribute loop of `_parse_data_from_arff`
(lines 338-380): the categorical flag appended to `categorical`, the entry
recorded in `categories_names` (if any), and the `attribute_dtype` string. -/
structure AttrInfo where
  categorical : Bool
  categories : Option (List Cell)
  dtype : String
  deriving DecidableEq

/-- `pd.factorize` on a list of label strings: first-occurrence integer
codes.  It is total -- factorizing a list of (hashable) strings never raises
`ValueError` -- so the `try`/`except ValueError` wrapped around it in
`_parse_data_from_arff` can never fire. -/
def pdFactorizeCodes (l : List String) : List Int :=
  (l.foldl
    (fun acc s =>
      match acc.2.indexOf? s with
      | some i => (acc.1 ++ [(i : Int)], acc.2)
      | none => (acc.1 ++ [(acc.2.length : Int)], acc.2 ++ [s]))
    (([], []) : List Int × List String)).1

/-- Python `set(['True', 'False']) == set(type_norm)`. -/
def pySetEqTrueFalse (norm : List String) : Bool :=
  norm.contains "True" && norm.contains "False" &&
    norm.all (fun s => s == "True" || s == "False")

/-- One iteration of the attribute loop of `_parse_data_from_arff`
(lines 338-380): the sparse-format checks followed by dtype inference.
A nominal attribute under `sparse_arff` runs `pd.factorize` on its labels
(which never raises, see `pdFactorizeCodes`); a `STRING` attribute under
`sparse_arff` raises `ValueError`.  A two-label nominal whose case-normalised
labels form the set {True, False} becomes `boolean` with the labels mapped
positionally to Python booleans; every other nominal is `categorical`. -/
def processAttribute (fmt : String) (attr : String × ArffType) : Except PyErr AttrInfo :=
  match attr.2 with
  | .nominal labels =>
    let _ := if pyLower fmt == "sparse_arff" then pdFactorizeCodes labels else []
    if labels.length == 2 then
      let norm := labels.map (fun cat => pyCapitalize (pyLower cat))
      if pySetEqTrueFalse norm then
        .ok ⟨true, some (norm.map (fun cat => Cell.cBool (cat == "True"))), "boolean"⟩
      else
        .ok ⟨true, some (labels.map Cell.cStr), "categorical"⟩
    else
      .ok ⟨true, some (labels.map Cell.cStr), "categorical"⟩
  | .string =>
    if pyLower fmt == "sparse_arff" then .error .valueError
    else .ok ⟨false, none, "string"⟩
  | .integer => .ok ⟨false, none, "integer"⟩
  | .real => .ok ⟨false, none, "floating"⟩
  | .numeric => .ok ⟨false, none, "floating"⟩

/-- The attribute loop of `_parse_data_from_arff`, in header order. -/
def mapAttrs (fmt : String) : List (String × ArffType) → Except PyErr (List AttrInfo)
  | [] => .ok []
  | a :: rest =>
    match processAttribute fmt a with
    | .error e => .error e
    | .ok i =>
      match mapAttrs fmt rest with
      | .error e => .error e
      | .ok is => .ok (i :: is)

/-- A named, typed column of a dense table.  `categories` is the ordered
label list of the `pd.Categorical` wrapper for categorical/boolean columns. -/
structure Column where
  name : String
  values : List Cell
  categories : Option (List Cell)
  deriving DecidableEq

/-- Sparse CSR matrix built from COO triples; values are float32, modelled
exactly as rationals. -/
structure SparseMat where
  nrows : Nat
  ncols : Nat
  entries : List (Nat × Nat × ℚ)
  deriving DecidableEq

/-- The in-memory data shapes flowing through `_load_data`/`get_data`:
a pandas DataFrame, a 1-d Series, a scipy CSR matrix, or a numpy array
(1-d or 2-d; 2-d also models the legacy ndarray payload of old pickles). -/
inductive PdData
  | pdDf (df : List Column)
  | pdSeries (c : Column)
  | pdSparse (m : SparseMat)
  | pdArr1 (vs : List Cell)
  | pdArr2 (rows : List (List Cell))
  deriving DecidableEq

/-- Decoded ARFF input handed to `_parse_data_from_arff`: the attribute
header plus the row data in the dense view (`arff.DENSE`) and the coordinate
view (`arff.COO`); only the view matching the requested format is consumed. -/
structure ArffPayload where
  attributes : List (String × ArffType)
  denseRows : List (List Cell)
  cooVals : List ℚ
  cooRows : List Nat
  cooCols : List Nat
  deriving DecidableEq

/-- Result triple of `_parse_data_from_arff`. -/
structure ParseOut where
  data : PdData
  categorical : List Bool
  attributeNames : List String
  deriving DecidableEq

/-- Python dict lookup over insertion-ordered pairs (later keys win). -/
def dictGet {α : Type} (m : List (String × α)) (k : String) : Option α :=
  m.foldl (fun acc kv => if kv.1 == k then some kv.2 else acc) none

/-- The dense column-assembly loop of `_parse_data_from_arff` (lines
388-399): column `i` is the `i`-th field of each row; categorical/boolean
columns go through `_unpack_categories`, others pass through unchanged.
`i` tracks the positional index of the name in `attribute_names`. -/
def buildColumns (dtypes : List (String × String)) (cats : List (String × List Cell))
    (rows : List (List Cell)) : Nat → List String → Except PyErr (List Column)
  | _, [] => .ok []
  | i, name :: rest =>
    let values := rows.map (fun r => r.getD i Cell.cNan)
    let dtype := (dictGet dtypes name).getD ""
    let col : Except PyErr Column :=
      if dtype == "categorical" || dtype == "boolean" then
        let catList := (dictGet cats name).getD []
        match unpackCategories values catList with
        | .error e => .error e
        | .ok vs => .ok ⟨name, vs, some catList⟩
      else .ok ⟨name, values, none⟩
    match col with
    | .error e => .error e
    | .ok c =>
      match buildColumns dtypes cats rows (i + 1) rest with
      | .error e => .error e
      | .ok cs => .ok (c :: cs)

/-- `_parse_data_from_arff` (dataset.py lines 303-403).  The format check of
`_get_arff` (line 289) is folded in front; the file-size and I/O errors of
`_get_arff` concern the physical file and are outside the model.  For
`sparse_arff` the COO triples become a CSR matrix sized to the maximum
observed row/column index + 1 with float32 values; for `arff` the rows become
a DataFrame whose categorical/boolean columns are unpacked. -/
def parseDataFromArff (fmt : String) (p : ArffPayload) : Except PyErr ParseOut :=
  if !(pyLower fmt == "arff" || pyLower fmt == "sparse_arff") then .error .valueError
  else
    match mapAttrs fmt p.attributes with
    | .error e => .error e
    | .ok infos =>
      let attribute_names := p.attributes.map (·.1)
      let categorical := infos.map (·.categorical)
      let dtypes := attribute_names.zip (infos.map (·.dtype))
      let cats := (attribute_names.zip infos).filterMap
        (fun ni => ni.2.categories.map (fun c => (ni.1, c)))
      if pyLower fmt == "sparse_arff" then
        match pyMaxNat p.cooRows with
        | .error e => .error e
        | .ok nr =>
          match pyMaxNat p.cooCols with
          | .error e => .error e
          | .ok nc =>
            .ok ⟨.pdSparse ⟨nr + 1, nc + 1,
                  (p.cooRows.zip (p.cooCols.zip p.cooVals)).map
                    (fun x => (x.1, x.2.1, x.2.2))⟩,
                 categorical, attribute_names⟩
      else
        match buildColumns dtypes cats p.denseRows 0 attribute_names with
        | .error e => .error e
        | .ok cols => .ok ⟨.pdDf cols, categorical, attribute_names⟩

/-- Contents of the pickle side-file: either the (categorical flags,
attribute names) metadata pair written next to a feather snapshot, or the
full `(data, categorical, attribute_names)` blob of pickle-format caches;
`pTrunc` models a truncated file on which `pickle.load` raises `EOFError`. -/
inductive PickleContent
  | pMeta (categorical : List Bool) (attributeNames : List String)
  | pBlob (data : PdData) (categorical : List Bool) (attributeNames : List String)
  | pTrunc
  deriving DecidableEq

/-- The two cache artifacts on disk (`none` = file absent).  The feather file
stores a dense DataFrame. -/
structure FS where
  featherFile : Option (List Column)
  pickleFile : Option PickleContent
  deriving DecidableEq

/-- The descriptor fields of `OpenMLDataset` consulted by the embedded
methods. -/
structure DatasetSelf where
  format : String
  cacheFormat : String
  rowIdAttribute : Option String
  ignoreAttribute : Option (List String)
  deriving DecidableEq

/-- Result of `_create_pickle_in_cache`: the cache files after the call, the
(possibly downgraded) `self.cache_format`, and the number of
`_parse_data_from_arff` invocations performed (instrumentation for the
"cache is reused, the raw file is not re-parsed" properties).  The returned
path pair of the source is a pure function of `data_file`, identical in every
branch, and is omitted. -/
structure CacheBuildOut where
  fs : FS
  cacheFormat : String
  parseCount : Nat
  deriving DecidableEq

/-- `type(X) != scipy.sparse.csr.csr_matrix` (negated), dataset.py line 443. -/
def isCsrMatrix : PdData → Bool
  | .pdSparse _ => true
  | _ => false

/-- `isinstance(data, pd.DataFrame) or scipy.sparse.issparse(data)`,
dataset.py line 435. -/
def isDfOrSparse : PdData → Bool
  | .pdDf _ => true
  | .pdSparse _ => true
  | _ => false

/-- `feather.write_feather(X, ...)` requires a DataFrame; the guard on line
443 ensures only non-sparse parse results (always DataFrames) reach it. -/
def asDfData : PdData → List Column
  | .pdDf df => df
  | _ => []

/-- The rebuild tail of `_create_pickle_in_cache` (dataset.py lines 439-460):
re-parse the ARFF, then either write a feather snapshot plus a metadata
pickle (dense data under `cache_format='feather'`), or downgrade
`self.cache_format` to `'pickle'` and write a single blob pickle. -/
def rebuildCache (self : DatasetSelf) (fs : FS) (p : ArffPayload) :
    Except PyErr CacheBuildOut :=
  match parseDataFromArff self.format p with
  | .error e => .error e
  | .ok out =>
    if self.cacheFormat == "feather" && !(isCsrMatrix out.data) then
      .ok ⟨{ featherFile := some (asDfData out.data),
             pickleFile := some (.pMeta out.categorical out.attributeNames) },
           self.cacheFormat, 1⟩
    else
      .ok ⟨{ featherFile := fs.featherFile,
             pickleFile := some (.pBlob out.data out.categorical out.attributeNames) },
           "pickle", 1⟩

/-- `_create_pickle_in_cache` (dataset.py lines 405-460).  Feather mode with
an existing snapshot reads the metadata pickle: `EOFError` returns the paths
unchanged (recovery deferred to `_load_data`), but on a successful read the
source has no early return, so control falls through to the rebuild tail.
Pickle mode with an existing pickle returns early when the blob already holds
a DataFrame/sparse matrix and rebuilds when it holds a legacy ndarray.
Reading a blob where a metadata pair is expected (or vice versa) is a tuple
unpacking mismatch: an uncaught `ValueError`. -/
def createPickleInCache (self : DatasetSelf) (fs : FS) (p : ArffPayload) :
    Except PyErr CacheBuildOut :=
  if self.cacheFormat == "feather" then
    match fs.featherFile with
    | some _ =>
      match fs.pickleFile with
      | none => .error .fileNotFound
      | some .pTrunc => .ok ⟨fs, self.cacheFormat, 0⟩
      | some (.pMeta _ _) => rebuildCache self fs p
      | some (.pBlob _ _ _) => .error .valueError
    | none => rebuildCache self fs p
  else
    match fs.pickleFile with
    | none => rebuildCache self fs p
    | some .pTrunc => .ok ⟨fs, self.cacheFormat, 0⟩
    | some (.pMeta _ _) => .error .valueError
    | some (.pBlob d _ _) =>
      if isDfOrSparse d then .ok ⟨fs, self.cacheFormat, 0⟩
      else rebuildCache self fs p

/-- Result of `_load_data`: the data triple, the cache files after the call,
the effective `self.cache_format`, and the number of raw-file parses. -/
structure LoadOut where
  data : PdData
  categorical : List Bool
  attributeNames : List String
  fs : FS
  cacheFormat : String
  parseCount : Nat
  deriving DecidableEq

/-- `_load_data` (dataset.py lines 462-495).  `pickleFileSet` models
`self.data_pickle_file is not None`; when it is false the cache is first
ensured via `_create_pickle_in_cache` (the download of the raw file is an
external collaborator).  The cache read catches `EOFError` (warn and
re-parse the raw file, leaving the cache files untouched) and
`FileNotFoundError` (re-raised as `ValueError` naming the pickle path);
a tuple-arity mismatch between the pickle contents and the unpacking
pattern is an uncaught `ValueError`. -/
def loadData (self : DatasetSelf) (pickleFileSet : Bool) (fs : FS) (p : ArffPayload) :
    Except PyErr LoadOut :=
  let pre : Except PyErr (FS × String × Nat) :=
    if pickleFileSet then .ok (fs, self.cacheFormat, 0)
    else
      match createPickleInCache self fs p with
      | .error e => .error e
      | .ok r => .ok (r.fs, r.cacheFormat, r.parseCount)
  match pre with
  | .error e => .error e
  | .ok (fs, cacheFormat, cnt) =>
    if cacheFormat == "feather" then
      match fs.featherFile with
      | none => .error .valueError
      | some df =>
        match fs.pickleFile with
        | none => .error .valueError
        | some .pTrunc =>
          match parseDataFromArff self.format p with
          | .error e => .error e
          | .ok out =>
            .ok ⟨out.data, out.categorical, out.attributeNames, fs, cacheFormat, cnt + 1⟩
        | some (.pMeta c a) => .ok ⟨.pdDf df, c, a, fs, cacheFormat, cnt⟩
        | some (.pBlob _ _ _) => .error .valueError
    else
      match fs.pickleFile with
      | none => .error .valueError
      | some .pTrunc =>
        match parseDataFromArff self.format p with
        | .error e => .error e
        | .ok out =>
          .ok ⟨out.data, out.categorical, out.attributeNames, fs, cacheFormat, cnt + 1⟩
      | some (.pBlob d c a) => .ok ⟨d, c, a, fs, cacheFormat, cnt⟩
      | some (.pMeta _ _) => .error .valueError

/-- numpy target dtypes: the `int`/`float` chosen at dataset.py line 661. -/
inductive TDtype
  | tInt
  | tFloat
  deriving DecidableEq

/-- C-style truncation toward zero, the rounding of numpy's float-to-int
`astype`. -/
def pyTrunc (q : ℚ) : Int :=
  if 0 ≤ q then ⌊q⌋ else ⌈q⌉

/-- The int value numpy produces when casting NaN to a 64-bit integer on the
usual x86 runtime. -/
def npNanAsInt : Int := -(2 ^ 63)

/-- numpy `astype(target_dtype)` on one cell.  Strings and `None` never reach
an `astype` call in the modelled paths (the array conversion has already
turned everything numeric, or raised) and are passed through. -/
def astypeCell (t : TDtype) : Cell → Cell
  | .cInt n => match t with
    | .tInt => .cInt n
    | .tFloat => .cFloat n
  | .cFloat q => match t with
    | .tInt => .cInt (pyTrunc q)
    | .tFloat => .cFloat q
  | .cNan => match t with
    | .tInt => .cInt npNanAsInt
    | .tFloat => .cNan
  | .cBool b => match t with
    | .tInt => .cInt (if b then 1 else 0)
    | .tFloat => .cFloat (if b then 1 else 0)
  | c => c

/-- `astype(target_dtype)` on a whole data value (elementwise; on a sparse
matrix scipy casts the stored values). -/
def astypePd (t : TDtype) : PdData → PdData
  | .pdDf df => .pdDf (df.map (fun c => ⟨c.name, c.values.map (astypeCell t), c.categories⟩))
  | .pdSeries c => .pdSeries ⟨c.name, c.values.map (astypeCell t), c.categories⟩
  | .pdSparse m => .pdSparse ⟨m.nrows, m.ncols,
      m.entries.map (fun e => (e.1, e.2.1,
        match t with
        | .tInt => ((pyTrunc e.2.2 : Int) : ℚ)
        | .tFloat => e.2.2))⟩
  | .pdArr1 vs => .pdArr1 (vs.map (astypeCell t))
  | .pdArr2 rows => .pdArr2 (rows.map (fun r => r.map (astypeCell t)))

/-- Boolean-mask selection `l[keep]` over a parallel list, as produced by
`zip`-filtering in the source (dataset.py lines 630-638 and 670-673). -/
def applyKeep {α : Type} (l : List α) (keep : List Bool) : List α :=
  ((l.zip keep).filter (fun x => x.2)).map (·.1)

/-- Value of the sparse matrix at (i, j); COO duplicates are assumed summed
away by `tocsr` (no duplicate coordinates in the modelled inputs). -/
def sparseAt (m : SparseMat) (i j : Nat) : ℚ :=
  match m.entries.find? (fun e => decide (e.1 = i) && decide (e.2.1 = j)) with
  | some e => e.2.2
  | none => 0

/-- Number of `true` entries of `keep` strictly before position `j`. -/
def rankTrue (keep : List Bool) (j : Nat) : Nat :=
  ((keep.take j).filter (fun b => b)).length

/-- Column selection `m[:, keep]` on a sparse matrix: kept columns are
re-indexed by their rank among the kept ones. -/
def sparseSelect (m : SparseMat) (keep : List Bool) : SparseMat :=
  { nrows := m.nrows,
    ncols := (keep.filter (fun b => b)).length,
    entries := m.entries.filterMap (fun e =>
      if keep.getD e.2.1 false then some (e.1, rankTrue keep e.2.1, e.2.2) else none) }

/-- `data.iloc[:, keep]` / `data[:, keep]` (dataset.py lines 632-635 and
663-668): positional boolean-mask column selection on either representation. -/
def selectCols : PdData → List Bool → PdData
  | .pdDf df, keep => .pdDf (applyKeep df keep)
  | .pdSparse m, keep => .pdSparse (sparseSelect m keep)
  | .pdArr2 rows, keep => .pdArr2 (rows.map (fun r => applyKeep r keep))
  | d, _ => d

/-- `hasattr(data, 'iloc')`: pandas objects have `iloc`, numpy arrays and
scipy matrices do not. -/
def hasIloc : PdData → Bool
  | .pdDf _ => true
  | .pdSeries _ => true
  | _ => false

/-- `scipy.sparse.issparse(data)`. -/
def isSparsePd : PdData → Bool
  | .pdSparse _ => true
  | _ => false

/-- `_encode_if_category` (dataset.py lines 525-530): a categorical column
is replaced by its float32 integer codes, with the missing-category code -1
becoming NaN; other columns are returned unchanged. -/
def encodeIfCategory (c : Column) : Column :=
  match c.categories with
  | some cats =>
    ⟨c.name,
     c.values.map (fun v =>
       match v with
       | Cell.cNan => Cell.cNan
       | v =>
         match cats.findIdx? (fun cc => decide (cc = v)) with
         | some i => Cell.cFloat (i : ℚ)
         | none => Cell.cNan),
     none⟩
  | none => c

/-- `np.asarray(..., dtype=np.float32)` on one cell: numerics and bools
convert, `None` becomes NaN, non-numeric strings raise `ValueError`
(decimal-integer strings parse; other numeric literals are not modelled). -/
def asFloat32Cell : Cell → Except PyErr Cell
  | .cInt n => .ok (.cFloat n)
  | .cFloat q => .ok (.cFloat q)
  | .cNan => .ok .cNan
  | .cNone => .ok .cNan
  | .cBool b => .ok (.cFloat (if b then 1 else 0))
  | .cStr s =>
    match pyStrToInt s with
    | some n => .ok (.cFloat n)
    | none => .error .valueError

/-- `np.asarray(..., dtype=np.float32)` over a list of cells. -/
def mapF32 : List Cell → Except PyErr (List Cell)
  | [] => .ok []
  | v :: rest =>
    match asFloat32Cell v with
    | .error e => .error e
    | .ok w =>
      match mapF32 rest with
      | .error e => .error e
      | .ok ws => .ok (w :: ws)

/-- `mapF32` over the columns of a DataFrame. -/
def mapF32Cols : List Column → Except PyErr (List (List Cell))
  | [] => .ok []
  | c :: rest =>
    match mapF32 c.values with
    | .error e => .error e
    | .ok vs =>
      match mapF32Cols rest with
      | .error e => .error e
      | .ok vss => .ok (vs :: vss)

/-- Transpose a column-major list of lists into rows. -/
def matTranspose (cols : List (List Cell)) : List (List Cell) :=
  match cols with
  | [] => []
  | c0 :: _ => (List.range c0.length).map (fun i => cols.map (fun c => c.getD i Cell.cNan))

/-- `pd.SparseDataFrame(data, columns=attribute_names)` (dataset.py line
548): a sparse-backed tabular structure with the given column labels;
modelled densely (fill value 0 for CSR input). -/
def sparseToDf (m : SparseMat) (names : List String) : List Column :=
  (names.zip (List.range m.ncols)).map (fun nj =>
    ⟨nj.1, (List.range m.nrows).map (fun i => Cell.cFloat (sparseAt m i nj.2)), none⟩)

/-- `_convert_array_format` (dataset.py lines 497-557).  For `"array"` on
non-sparse data: categorical columns are replaced by their float32 codes and
the result is coerced to a float32 numpy array, with an irreducibly
non-numeric column raising `PyOpenMLError`; a 2-d plain array would hit
`data.columns` and raise `AttributeError` (modelled as `typeError`; this
shape never reaches the converter in the embedded call sites).  For
`"dataframe"`: sparse data becomes a sparse-backed DataFrame, anything else
is returned unchanged.  Any other format logs a warning and returns the
input unchanged. -/
def convertArrayFormat (data : PdData) (fmt : String) (attributeNames : List String) :
    Except PyErr PdData :=
  if fmt == "array" && !(isSparsePd data) then
    match data with
    | .pdDf df =>
      match mapF32Cols (df.map encodeIfCategory) with
      | .ok colsF => .ok (.pdArr2 (matTranspose colsF))
      | .error _ => .error .pyOpenMLError
    | .pdSeries c =>
      match mapF32 (encodeIfCategory c).values with
      | .ok vs => .ok (.pdArr1 vs)
      | .error _ => .error .pyOpenMLError
    | .pdArr1 vs =>
      match mapF32 vs with
      | .ok vs' => .ok (.pdArr1 vs')
      | .error _ => .error .pyOpenMLError
    | .pdArr2 _ => .error .typeError
    | .pdSparse m => .ok (.pdSparse m)
  else if fmt == "dataframe" then
    match data with
    | .pdSparse m => .ok (.pdDf (sparseToDf m attributeNames))
    | d => .ok d
  else .ok data

/-- `np.asarray(y.todense())` followed by `.flatten()` (dataset.py line 677):
the full dense row-major contents of the sparse matrix. -/
def sparseTodenseFlat (m : SparseMat) : List Cell :=
  (List.range m.nrows).flatMap (fun i =>
    (List.range m.ncols).map (fun j => Cell.cFloat (sparseAt m i j)))

/-- `DataFrame.squeeze()` / `np.squeeze` as applied to the single-column `y`
(dataset.py line 678); the 1x1-to-scalar collapse is not modelled. -/
def squeezePd : PdData → PdData
  | .pdDf [c] => .pdSeries c
  | .pdArr2 rows =>
    if rows.all (fun r => r.length == 1) then .pdArr1 (rows.map (fun r => r.headD Cell.cNan))
    else .pdArr2 rows
  | d => d

/-- The exclusion set of `get_data` (dataset.py lines 614-625): the row-id
attribute (unless `include_row_id`) followed by the ignore attributes
(unless `include_ignore_attribute`). -/
def excludedAttributes (self : DatasetSelf) (includeRowId includeIgnoreAttribute : Bool) :
    List String :=
  (if !includeRowId then (self.rowIdAttribute.map (fun r => [r])).getD [] else [])
    ++ (if !includeIgnoreAttribute then self.ignoreAttribute.getD [] else [])

/-- The column-exclusion step of `get_data` (dataset.py lines 614-638):
when the exclusion set is non-empty, the data columns and the parallel
categorical/name lists are filtered by the same boolean mask. -/
def excludeStep (self : DatasetSelf) (includeRowId includeIgnoreAttribute : Bool)
    (data : PdData) (categorical : List Bool) (names : List String) :
    PdData × List Bool × List String :=
  let to_exclude := excludedAttributes self includeRowId includeIgnoreAttribute
  if to_exclude.length > 0 then
    let keep := names.map (fun c => !(to_exclude.contains c))
    (selectCols data keep, applyKeep categorical keep, applyKeep names keep)
  else (data, categorical, names)

/-- `target.split(',') if ',' in target else [target]` (lines 645-649). -/
def parseTargetArg (t : String) : List String :=
  if t.data.contains ',' then pySplitComma t else [t]

/-- Result quadruple of `get_data`. -/
structure GetDataOut where
  x : PdData
  y : Option PdData
  categorical : List Bool
  attributeNames : List String
  deriving DecidableEq

/-- `get_data` (dataset.py lines 572-683): load-or-build the cache, exclude
row-id/ignore columns, optionally split off the target column (more than one
matched target raises `NotImplementedError` carrying the count; the
`target_categorical[0]` lookup raises `IndexError` when no column matched),
and convert `x` and `y` to the requested output format, re-casting `y` to the
target dtype for `"array"` output. -/
def getData (self : DatasetSelf) (pickleFileSet : Bool) (fs : FS) (p : ArffPayload)
    (target : Option String) (includeRowId includeIgnoreAttribute : Bool)
    (datasetFormat : String) : Except PyErr GetDataOut :=
  match loadData self pickleFileSet fs p with
  | .error e => .error e
  | .ok ld =>
    let dcn := excludeStep self includeRowId includeIgnoreAttribute
      ld.data ld.categorical ld.attributeNames
    let data := dcn.1
    let categorical := dcn.2.1
    let attribute_names := dcn.2.2
    match target with
    | none =>
      match convertArrayFormat data datasetFormat attribute_names with
      | .error e => .error e
      | .ok d => .ok ⟨d, none, categorical, attribute_names⟩
    | some tgt =>
      let targetList := parseTargetArg tgt
      let targets := attribute_names.map (fun c => targetList.contains c)
      let nTargets := targets.count true
      if nTargets > 1 then .error (.notImplemented nTargets)
      else
        let target_categorical := applyKeep categorical targets
        match target_categorical.head? with
        | none => .error .indexError
        | some tc =>
          let target_dtype := if tc then TDtype.tInt else TDtype.tFloat
          let notTargets := targets.map (fun b => !b)
          let x0 := selectCols data notTargets
          let y0 :=
            if hasIloc data then selectCols data targets
            else astypePd target_dtype (selectCols data targets)
          let categorical := applyKeep categorical notTargets
          let attribute_names := applyKeep attribute_names notTargets
          match convertArrayFormat x0 datasetFormat attribute_names with
          | .error e => .error e
          | .ok x =>
            let y1 :=
              match y0 with
              | .pdSparse m => PdData.pdArr1 ((sparseTodenseFlat m).map (astypeCell target_dtype))
              | v => v
            let y2 := squeezePd y1
            match convertArrayFormat y2 datasetFormat attribute_names with
            | .error e => .error e
            | .ok y3 =>
              let y4 := if datasetFormat == "array" then astypePd target_dtype y3 else y3
              .ok ⟨x, some y4, categorical, attribute_names⟩

/-- A cell numpy can hold in a numeric array: int, float, NaN or bool. -/
def isNumericCell : Cell → Bool
  | .cInt _ => true
  | .cFloat _ => true
  | .cNan => true
  | .cBool _ => true
  | _ => false

/-- Total version of `asFloat32Cell` on numeric cells, used to state what
`mapF32` returns when no entry raises. -/
def f32Val : Cell → Cell
  | .cInt n => .cFloat n
  | .cFloat q => .cFloat q
  | .cNan => .cNan
  | .cBool b => .cFloat (if b then 1 else 0)
  | c => c

/- ### Helper lemmas -/

theorem pyTrunc_intCast (n : Int) : pyTrunc ((n : Int) : ℚ) = n := by
  unfold pyTrunc
  split
  · simp
  · simp

theorem pyIntCell_error_cases (x : Cell) (e : PyErr) (h : pyIntCell x = .error e) :
    e = .typeError ∨ e = .valueError := by
  cases x <;> simp [pyIntCell] at h
  · exact Or.inl h.symm
  · exact Or.inr h.symm
  · revert h; split <;> simp
  · revert h; split <;> simp
    intro h; exact Or.inr h.symm

theorem pyListGet_ok_of_bounds {α : Type} (l : List α) (n : Int)
    (h1 : -(l.length : Int) ≤ n) (h2 : n < l.length) :
    ∃ c, pyListGet l n = .ok c := by
  unfold pyListGet
  simp only
  split
  · rename_i hi
    have hlt : (n + (l.length : Int)).toNat < l.length := by omega
    cases hg : l.get? (n + (l.length : Int)).toNat with
    | none =>
      have := List.get?_eq_none.mp hg
      omega
    | some c =>
      refine ⟨c, ?_⟩
      have : (0 : Int) ≤ n + (l.length : Int) := by omega
      simp [this, hg]
  · rename_i hi
    have hlt : n.toNat < l.length := by omega
    cases hg : l.get? n.toNat with
    | none =>
      have := List.get?_eq_none.mp hg
      omega
    | some c =>
      refine ⟨c, ?_⟩
      have h0 : (0 : Int) ≤ n := by omega
      simp [h0, hg]

theorem applyKeep_map_self {α : Type} (l : List α) (pb : α → Bool) :
    applyKeep l (l.map pb) = l.filter pb := by
  induction l with
  | nil => rfl
  | cons a rest ih =>
    cases h : pb a <;> simp_all [applyKeep, List.zip, List.filter_cons, h]

theorem applyKeep_parallel {α : Type} (l : List α) (names : List String)
    (pb : String → Bool) (h : l.length = names.length) :
    applyKeep l (names.map pb) =
      ((l.zip names).filter (fun x => pb x.2)).map (·.1) := by
  induction l generalizing names with
  | nil => cases names <;> rfl
  | cons a rest ih =>
    cases names with
    | nil => simp at h
    | cons nm nrest =>
      simp only [List.length_cons, Nat.succ.injEq] at h
      have ih' := ih nrest h
      cases hb : pb nm <;> simp_all [applyKeep, List.zip, List.filter_cons, hb]

theorem applyKeep_of_all_false {α : Type} (l : List α) (keep : List Bool)
    (h : ∀ b ∈ keep, b = false) : applyKeep l keep = [] := by
  unfold applyKeep
  have hf : (l.zip keep).filter (fun x => x.2) = [] := by
    rw [List.filter_eq_nil_iff]
    intro x hx
    have hb := (List.of_mem_zip hx).2
    simp [h x.2 hb]
  rw [hf]
  rfl

theorem astypeCell_numeric (t : TDtype) (v : Cell) (h : isNumericCell v = true) :
    isNumericCell (astypeCell t v) = true := by
  cases v <;> cases t <;> simp_all [isNumericCell, astypeCell]

theorem mapF32_numeric (vs : List Cell) (h : ∀ v ∈ vs, isNumericCell v = true) :
    mapF32 vs = .ok (vs.map f32Val) := by
  induction vs with
  | nil => rfl
  | cons v rest ih =>
    have hv := h v (by simp)
    have hrest : ∀ w ∈ rest, isNumericCell w = true := fun w hw => h w (by simp [hw])
    cases v <;> simp_all [mapF32, asFloat32Cell, f32Val, isNumericCell]

theorem astype_f32_key (t : TDtype) (v : Cell) (h : isNumericCell v = true) :
    astypeCell t (f32Val (astypeCell t v)) = astypeCell t (f32Val v) := by
  cases v <;> cases t <;>
    simp_all [astypeCell, f32Val, isNumericCell, pyTrunc_intCast]

/- ### Claim theorems -/

/-- Claim C1 (code divergence): with `cache_format='feather'` and an existing
feather+metadata pair whose metadata read succeeds, `_create_pickle_in_cache`
is claimed never to invoke the raw-format decoder nor rewrite the cache.  In
the source, the successful-read branch has no early return, so control falls
through to the rebuild tail: at this concrete input the decoder runs once
(`parseCount = 1`) and the existing snapshot contents `[5]` are overwritten
with the re-parsed contents `[1]`. -/
theorem createPickle_feather_valid_pair_reparses :
    createPickleInCache ⟨"arff", "feather", none, none⟩
      ⟨some [⟨"a", [Cell.cInt 5], none⟩], some (.pMeta [false] ["a"])⟩
      ⟨[("a", ArffType.integer)], [[Cell.cInt 1]], [], [], []⟩ =
      .ok ⟨⟨some [⟨"a", [Cell.cInt 1], none⟩], some (.pMeta [false] ["a"])⟩,
           "feather", 1⟩ := by
  decide

/-- Claim C6 (code divergence): a sparse-format schema with a categorical
column whose labels `["a", "b"]` are not numeric strings is claimed to fail
with a FormatError at parse time.  The guard in the source runs
`pd.factorize` on the labels, which is total on label lists, so the
`except ValueError` never fires and the parse succeeds. -/
theorem parse_sparse_nonnumeric_categorical_succeeds :
    parseDataFromArff "sparse_arff"
      ⟨[("c", ArffType.nominal ["a", "b"])], [], [1, 2], [0, 1], [0, 0]⟩ =
      .ok ⟨.pdSparse ⟨2, 1, [(0, 0, 1), (1, 0, 2)]⟩, [true], ["c"]⟩ := by
  decide

/-- Claim C3, counterexample: the claim says every entry that fails to map
(including an out-of-range index) becomes NaN and the operation never
raises; but on the entry `2` with two category labels the lookup raises an
uncaught `IndexError`. -/
theorem unpackCategories_out_of_range_raises :
    unpackCategories [Cell.cInt 2] [Cell.cStr "a", Cell.cStr "b"] =
      .error PyErr.indexError := by
  decide

/-- Claim C3 (amended): entries whose `int(x)` conversion fails (non-numeric,
explicit missing markers) become NaN and never raise; integer-valued entries
are mapped through Python list indexing, so the operation returns normally
provided every integer index is in Python range `-len ≤ n < len` (negative
indices select labels from the end; an index outside that range raises
`IndexError`). -/
theorem unpackCategories_amended (series categories : List Cell)
    (h : ∀ x ∈ series, ∀ n, pyIntCell x = .ok n →
      -(categories.length : Int) ≤ n ∧ n < categories.length) :
    unpackCategories series categories = .ok (series.map (fun x =>
      match pyIntCell x with
      | .ok n =>
        match pyListGet categories n with
        | .ok c => c
        | .error _ => Cell.cNan
      | .error _ => Cell.cNan)) := by
  induction series with
  | nil => rfl
  | cons x rest ih =>
    have hx : ∀ n, pyIntCell x = .ok n →
        -(categories.length : Int) ≤ n ∧ n < categories.length :=
      fun n hn => h x (List.mem_cons_self x rest) n hn
    have hrest : ∀ y ∈ rest, ∀ n, pyIntCell y = .ok n →
        -(categories.length : Int) ≤ n ∧ n < categories.length :=
      fun y hy => h y (List.mem_cons_of_mem x hy)
    have ih' := ih hrest
    simp only [unpackCategories] at ih'
    cases hpx : pyIntCell x with
    | ok n =>
      obtain ⟨c, hc⟩ := pyListGet_ok_of_bounds categories n (hx n hpx).1 (hx n hpx).2
      simp [unpackCategories, unpackCol, hpx, hc, ih']
    | error e =>
      rcases pyIntCell_error_cases x e hpx with he | he <;> subst he <;>
        simp [unpackCategories, unpackCol, hpx, ih']

/-- Claim C3, witness for the amended theorem at a concrete series: `None`
and the string `"x"` and NaN become NaN, `1` maps to the second label and
the in-range negative index `-2` wraps to the first label, with no
exception. -/
theorem unpackCategories_amended_witness :
    unpackCategories [Cell.cNone, Cell.cStr "x", Cell.cInt 1, Cell.cNan, Cell.cInt (-2)]
      [Cell.cStr "a", Cell.cStr "b"] =
      .ok [Cell.cNan, Cell.cNan, Cell.cStr "b", Cell.cNan, Cell.cStr "a"] := by
  exact unpackCategories_amended _ _ (by
    intro x hx n hn
    fin_cases hx <;> simp_all [pyIntCell, pyStrToInt, digitsToNat] <;> omega)

/-- Claim C4, counterexample: the claim says a two-label column normalising
to {true, false} always gets label list [False, True]; with declared order
`["TRUE", "FALSE"]` the source maps labels positionally and produces
[True, False], which differs from [False, True]. -/
theorem processAttribute_true_false_order_counterexample :
    processAttribute "arff" ("c", ArffType.nominal ["TRUE", "FALSE"]) =
      .ok ⟨true, some [Cell.cBool true, Cell.cBool false], "boolean"⟩ ∧
    [Cell.cBool true, Cell.cBool false] ≠ [Cell.cBool false, Cell.cBool true] := by
  decide

/-- Claim C4 (amended): a column declared with exactly two labels that after
case-normalisation form the set {"true", "false"} infers as boolean, not
categorical, and its label list maps the declared labels positionally
(each label normalising to "True" becomes `True`, the other `False`), so the
declared order [false-label, true-label] yields [False, True] while the
reverse declared order yields [True, False]. -/
theorem processAttribute_boolean_positional (fmt name l1 l2 : String)
    (h : pySetEqTrueFalse [pyCapitalize (pyLower l1), pyCapitalize (pyLower l2)] = true) :
    processAttribute fmt (name, .nominal [l1, l2]) =
      .ok ⟨true,
        some [Cell.cBool (pyCapitalize (pyLower l1) == "True"),
              Cell.cBool (pyCapitalize (pyLower l2) == "True")],
        "boolean"⟩ := by
  simp [processAttribute, h]

/-- Claim C4, witness: mixed-case labels `["fAlSe", "tRuE"]` infer as boolean
with positional label list [False, True]. -/
theorem processAttribute_boolean_positional_witness :
    processAttribute "arff" ("c", .nominal ["fAlSe", "tRuE"]) =
      .ok ⟨true, some [Cell.cBool false, Cell.cBool true], "boolean"⟩ := by
  exact processAttribute_boolean_positional "arff" "c" "fAlSe" "tRuE" (by decide)

/-- Claim C5: when the parsed representation is sparse, the cache build run
from a no-cache state forces the cache format tag to `'pickle'` (blob) even
if `'feather'` (snapshot) was requested, writes a single blob containing the
(table, categorical flags, attribute names) triple, and writes no snapshot
file. -/
theorem createPickle_sparse_forces_blob (self : DatasetSelf) (fs : FS) (p : ArffPayload)
    (m : SparseMat) (c : List Bool) (a : List String)
    (hfe : fs.featherFile = none) (hpk : fs.pickleFile = none)
    (hp : parseDataFromArff self.format p = .ok ⟨.pdSparse m, c, a⟩) :
    createPickleInCache self fs p =
      .ok ⟨⟨none, some (.pBlob (.pdSparse m) c a)⟩, "pickle", 1⟩ := by
  unfold createPickleInCache
  cases hcf : (self.cacheFormat == "feather") <;>
    simp [hcf, hfe, hpk, rebuildCache, hp, isCsrMatrix]

/-- Claim C5, witness: a one-entry sparse dataset requested with
`cache_format='feather'` is cached as a pickle blob and no feather file is
written. -/
theorem createPickle_sparse_forces_blob_witness :
    createPickleInCache ⟨"sparse_arff", "feather", none, none⟩ ⟨none, none⟩
      ⟨[("c", ArffType.nominal ["0", "1"])], [], [1], [0], [0]⟩ =
      .ok ⟨⟨none, some (.pBlob (.pdSparse ⟨1, 1, [(0, 0, 1)]⟩) [true] ["c"])⟩,
           "pickle", 1⟩ := by
  exact createPickle_sparse_forces_blob ⟨"sparse_arff", "feather", none, none⟩
    ⟨none, none⟩ ⟨[("c", ArffType.nominal ["0", "1"])], [], [1], [0], [0]⟩
    ⟨1, 1, [(0, 0, 1)]⟩ [true] ["c"] rfl rfl (by decide)

/-- Claim C2: an `EOFError` while reading the cache metadata/blob pickle
during `_load_data` is non-fatal: the call logs a warning, re-parses the raw
file, returns exactly what a no-cache parse returns (including propagating
its errors unchanged), performs exactly one parse, and leaves the cache
files on disk unmodified and un-deleted. -/
theorem loadData_eof_fallback (self : DatasetSelf) (fs : FS) (p : ArffPayload)
    (hpk : fs.pickleFile = some .pTrunc)
    (hf : self.cacheFormat == "feather" → fs.featherFile.isSome = true) :
    loadData self true fs p =
      match parseDataFromArff self.format p with
      | .error e => .error e
      | .ok out => .ok ⟨out.data, out.categorical, out.attributeNames, fs,
                        self.cacheFormat, 1⟩ := by
  unfold loadData
  cases hcf : (self.cacheFormat == "feather") with
  | true =>
    obtain ⟨df, hdf⟩ := Option.isSome_iff_exists.mp (hf hcf)
    cases hparse : parseDataFromArff self.format p <;> simp [hcf, hdf, hpk, hparse]
  | false =>
    cases hparse : parseDataFromArff self.format p <;> simp [hcf, hpk, hparse]

/-- Claim C2, witness: with a truncated metadata pickle in pickle mode, the
load falls back to parsing the one-column raw payload and leaves the
truncated file in place. -/
theorem loadData_eof_fallback_witness :
    loadData ⟨"arff", "pickle", none, none⟩ true ⟨none, some .pTrunc⟩
      ⟨[("a", ArffType.integer)], [[Cell.cInt 1]], [], [], []⟩ =
      .ok ⟨.pdDf [⟨"a", [Cell.cInt 1], none⟩], [false], ["a"],
           ⟨none, some .pTrunc⟩, "pickle", 1⟩ := by
  exact loadData_eof_fallback ⟨"arff", "pickle", none, none⟩ ⟨none, some .pTrunc⟩
    ⟨[("a", ArffType.integer)], [[Cell.cInt 1]], [], [], []⟩ rfl (by decide)

/-- Claim C9: in the array-output target pipeline of `get_data` the target
dtype coercion is applied both before and after the float32 array
conversion; the earlier coercion is an idempotent no-op, i.e. the value
returned after the double cast equals the value after a single cast, for
every numeric target column. -/
theorem convert_double_cast_idempotent (t : TDtype) (vs : List Cell) (names : List String)
    (h : ∀ v ∈ vs, isNumericCell v = true) :
    Except.map (astypePd t)
        (convertArrayFormat (.pdArr1 (vs.map (astypeCell t))) "array" names)
      = Except.map (astypePd t) (convertArrayFormat (.pdArr1 vs) "array" names) := by
  have h1 : ∀ v ∈ vs.map (astypeCell t), isNumericCell v = true := by
    intro v hv
    obtain ⟨w, hw, rfl⟩ := List.mem_map.mp hv
    exact astypeCell_numeric t w (h w hw)
  have e1 : convertArrayFormat (.pdArr1 (vs.map (astypeCell t))) "array" names
      = .ok (.pdArr1 ((vs.map (astypeCell t)).map f32Val)) := by
    simp [convertArrayFormat, isSparsePd, mapF32_numeric _ h1]
  have e2 : convertArrayFormat (.pdArr1 vs) "array" names
      = .ok (.pdArr1 (vs.map f32Val)) := by
    simp [convertArrayFormat, isSparsePd, mapF32_numeric _ h]
  rw [e1, e2]
  simp only [Except.map, astypePd, List.map_map]
  have : vs.map (astypeCell t ∘ f32Val ∘ astypeCell t) = vs.map (astypeCell t ∘ f32Val) :=
    List.map_congr_left (fun v hv => by
      simp only [Function.comp]
      exact astype_f32_key t v (h v hv))
  rw [this]

/-- Claim C9, witness: the double cast through a float32 array equals the
single cast on a concrete numeric column with an int target dtype. -/
theorem convert_double_cast_idempotent_witness :
    Except.map (astypePd TDtype.tInt)
        (convertArrayFormat
          (.pdArr1 ([Cell.cFloat (5 / 2), Cell.cNan, Cell.cInt 3,
                     Cell.cBool true].map (astypeCell TDtype.tInt))) "array" [])
      = Except.map (astypePd TDtype.tInt)
        (convertArrayFormat
          (.pdArr1 [Cell.cFloat (5 / 2), Cell.cNan, Cell.cInt 3,
                    Cell.cBool true]) "array" []) := by
  exact convert_double_cast_idempotent TDtype.tInt _ [] (by decide)

/-- Claim C8: a `get_data` call whose target argument matches more than one
remaining column fails with `NotImplementedError` stating the number of
matched target columns, and returns no data. -/
theorem getData_multi_target_not_implemented (self : DatasetSelf) (pfs : Bool)
    (fs : FS) (p : ArffPayload) (t : String) (incR incI : Bool) (fmt : String)
    (ld : LoadOut) (hload : loadData self pfs fs p = .ok ld)
    (hk : 1 < (((excludeStep self incR incI ld.data ld.categorical ld.attributeNames).2.2.map
        (fun c => (parseTargetArg t).contains c)).count true)) :
    getData self pfs fs p (some t) incR incI fmt =
      .error (.notImplemented
        (((excludeStep self incR incI ld.data ld.categorical ld.attributeNames).2.2.map
          (fun c => (parseTargetArg t).contains c)).count true)) := by
  unfold getData
  rw [hload]
  simp at hk ⊢
  intro hle
  exact absurd hk (by omega)

/-- Claim C8, witness: with three columns and `target="a,b"` the call fails
with `NotImplementedError` naming 2 matched targets. -/
theorem getData_multi_target_not_implemented_witness :
    getData ⟨"arff", "pickle", none, none⟩ true
      ⟨none, some (.pBlob (.pdDf [⟨"a", [Cell.cInt 0], none⟩, ⟨"b", [Cell.cInt 1], none⟩,
                                  ⟨"c", [Cell.cInt 2], none⟩])
                          [false, false, false] ["a", "b", "c"])⟩
      ⟨[], [], [], [], []⟩ (some "a,b") false false "dataframe" =
      .error (PyErr.notImplemented 2) := by
  exact getData_multi_target_not_implemented ⟨"arff", "pickle", none, none⟩ true
    ⟨none, some (.pBlob (.pdDf [⟨"a", [Cell.cInt 0], none⟩, ⟨"b", [Cell.cInt 1], none⟩,
                                ⟨"c", [Cell.cInt 2], none⟩])
                        [false, false, false] ["a", "b", "c"])⟩
    ⟨[], [], [], [], []⟩ "a,b" false false "dataframe"
    ⟨.pdDf [⟨"a", [Cell.cInt 0], none⟩, ⟨"b", [Cell.cInt 1], none⟩,
            ⟨"c", [Cell.cInt 2], none⟩],
     [false, false, false], ["a", "b", "c"],
     ⟨none, some (.pBlob (.pdDf [⟨"a", [Cell.cInt 0], none⟩, ⟨"b", [Cell.cInt 1], none⟩,
                                 ⟨"c", [Cell.cInt 2], none⟩])
                         [false, false, false] ["a", "b", "c"])⟩, "pickle", 0⟩
    rfl (by decide)

/-- Claim C10: a `get_data` call whose target is set but matches zero
remaining columns raises an uncaught `IndexError` (from `target_categorical[0]`
on the empty matched-target list) rather than returning a result or raising
one of the documented error kinds. -/
theorem getData_zero_target_matches_index_error (self : DatasetSelf) (pfs : Bool)
    (fs : FS) (p : ArffPayload) (t : String) (incR incI : Bool) (fmt : String)
    (ld : LoadOut) (hload : loadData self pfs fs p = .ok ld)
    (h0 : ∀ n ∈ (excludeStep self incR incI ld.data ld.categorical ld.attributeNames).2.2,
      (parseTargetArg t).contains n = false) :
    getData self pfs fs p (some t) incR incI fmt = .error .indexError := by
  unfold getData
  rw [hload]
  have hmask : ∀ b ∈ (excludeStep self incR incI
      ld.data ld.categorical ld.attributeNames).2.2.map
      (fun c => decide (c ∈ parseTargetArg t)), b = false := by
    intro b hb
    obtain ⟨n, hn, rfl⟩ := List.mem_map.mp hb
    simpa using h0 n hn
  have hcount : ((excludeStep self incR incI
      ld.data ld.categorical ld.attributeNames).2.2.map
      (fun c => decide (c ∈ parseTargetArg t))).count true = 0 :=
    List.count_eq_zero.mpr (fun hmem => by have := hmask true hmem; simp at this)
  have happly : applyKeep (excludeStep self incR incI
      ld.data ld.categorical ld.attributeNames).2.1
      ((excludeStep self incR incI ld.data ld.categorical ld.attributeNames).2.2.map
        (fun c => decide (c ∈ parseTargetArg t))) = [] :=
    applyKeep_of_all_false _ _ hmask
  simp [hcount, happly]

/-- Claim C10, witness: a one-column dataset queried with the absent target
`"z"` raises `IndexError`. -/
theorem getData_zero_target_matches_index_error_witness :
    getData ⟨"arff", "pickle", none, none⟩ true
      ⟨none, some (.pBlob (.pdDf [⟨"a", [Cell.cInt 0], none⟩]) [false] ["a"])⟩
      ⟨[], [], [], [], []⟩ (some "z") false false "dataframe" =
      .error PyErr.indexError := by
  exact getData_zero_target_matches_index_error ⟨"arff", "pickle", none, none⟩ true
    ⟨none, some (.pBlob (.pdDf [⟨"a", [Cell.cInt 0], none⟩]) [false] ["a"])⟩
    ⟨[], [], [], [], []⟩ "z" false false "dataframe"
    ⟨.pdDf [⟨"a", [Cell.cInt 0], none⟩], [false], ["a"],
     ⟨none, some (.pBlob (.pdDf [⟨"a", [Cell.cInt 0], none⟩]) [false] ["a"])⟩, "pickle", 0⟩
    rfl (by decide)

/-- `convertArrayFormat` with `"dataframe"` returns dense data unchanged. -/
theorem convertArrayFormat_dataframe_dense (l : List Column) (ns : List String) :
    convertArrayFormat (.pdDf l) "dataframe" ns = .ok (.pdDf l) := rfl

/-- Claim C7: on a descriptor with a row-id attribute and ignore attributes,
the default `get_data` call removes the row-id and ignore columns from the
returned data, categorical mask and attribute names in lockstep (the three
lists are filtered by the same per-name predicate, preserving relative
order), and the `include_row_id=true` call filters only by the ignore
attributes, so the row-id column is retained while ignore columns stay
excluded. -/
theorem getData_exclusion_lockstep (self : DatasetSelf) (fs : FS) (p : ArffPayload)
    (rid : String) (ign : List String) (df : List Column) (cat : List Bool)
    (names : List String) (fs2 : FS) (cf2 : String) (k : Nat)
    (hrid : self.rowIdAttribute = some rid)
    (hign : self.ignoreAttribute = some ign)
    (hload : loadData self true fs p = .ok ⟨.pdDf df, cat, names, fs2, cf2, k⟩)
    (hdf : df.length = names.length) (hcat : cat.length = names.length) :
    getData self true fs p none false false "dataframe" = .ok
      ⟨.pdDf (((df.zip names).filter (fun x => !((rid :: ign).contains x.2))).map (·.1)),
       none,
       ((cat.zip names).filter (fun x => !((rid :: ign).contains x.2))).map (·.1),
       names.filter (fun n => !((rid :: ign).contains n))⟩
    ∧ getData self true fs p none true false "dataframe" = .ok
      ⟨.pdDf (((df.zip names).filter (fun x => !(ign.contains x.2))).map (·.1)),
       none,
       ((cat.zip names).filter (fun x => !(ign.contains x.2))).map (·.1),
       names.filter (fun n => !(ign.contains n))⟩ := by
  have hexc : excludeStep self false false (.pdDf df) cat names =
      (.pdDf (((df.zip names).filter (fun x => !((rid :: ign).contains x.2))).map (·.1)),
       ((cat.zip names).filter (fun x => !((rid :: ign).contains x.2))).map (·.1),
       names.filter (fun n => !((rid :: ign).contains n))) := by
    unfold excludeStep excludedAttributes
    rw [hrid, hign]
    simp [selectCols]
    refine ⟨applyKeep_parallel df names _ hdf, applyKeep_parallel cat names _ hcat,
      applyKeep_map_self names _⟩
  have hexc2 : excludeStep self true false (.pdDf df) cat names =
      (.pdDf (((df.zip names).filter (fun x => !(ign.contains x.2))).map (·.1)),
       ((cat.zip names).filter (fun x => !(ign.contains x.2))).map (·.1),
       names.filter (fun n => !(ign.contains n))) := by
    unfold excludeStep excludedAttributes
    rw [hrid, hign]
    cases ign with
    | nil =>
      simp [List.map_fst_zip df names (le_of_eq hdf),
        List.map_fst_zip cat names (le_of_eq hcat)]
    | cons i irest =>
      simp [selectCols]
      refine ⟨applyKeep_parallel df names _ hdf, applyKeep_parallel cat names _ hcat,
        applyKeep_map_self names _⟩
  refine ⟨?_, ?_⟩
  · unfold getData
    rw [hload]
    simp [hexc, convertArrayFormat_dataframe_dense]
  · unfold getData
    rw [hload]
    simp [hexc2, convertArrayFormat_dataframe_dense]

/-- Claim C7, witness: with `rowIdAttribute="id"` and `ignoreAttribute=["foo"]`
the default call keeps only `"x"`, and the `include_row_id=true` call keeps
`"id"` and `"x"` but not `"foo"`, with data, mask and names filtered in
lockstep. -/
theorem getData_exclusion_lockstep_witness :
    getData ⟨"arff", "pickle", some "id", some ["foo"]⟩ true
      ⟨none, some (.pBlob (.pdDf [⟨"id", [Cell.cInt 0], none⟩, ⟨"foo", [Cell.cInt 1], none⟩,
                                  ⟨"x", [Cell.cFloat 3, Cell.cFloat 4], none⟩])
                          [false, false, true] ["id", "foo", "x"])⟩
      ⟨[], [], [], [], []⟩ none false false "dataframe" =
      .ok ⟨.pdDf [⟨"x", [Cell.cFloat 3, Cell.cFloat 4], none⟩], none, [true], ["x"]⟩
    ∧ getData ⟨"arff", "pickle", some "id", some ["foo"]⟩ true
      ⟨none, some (.pBlob (.pdDf [⟨"id", [Cell.cInt 0], none⟩, ⟨"foo", [Cell.cInt 1], none⟩,
                                  ⟨"x", [Cell.cFloat 3, Cell.cFloat 4], none⟩])
                          [false, false, true] ["id", "foo", "x"])⟩
      ⟨[], [], [], [], []⟩ none true false "dataframe" =
      .ok ⟨.pdDf [⟨"id", [Cell.cInt 0], none⟩, ⟨"x", [Cell.cFloat 3, Cell.cFloat 4], none⟩],
           none, [false, true], ["id", "x"]⟩ := by
  exact getData_exclusion_lockstep ⟨"arff", "pickle", some "id", some ["foo"]⟩
    ⟨none, some (.pBlob (.pdDf [⟨"id", [Cell.cInt 0], none⟩, ⟨"foo", [Cell.cInt 1], none⟩,
                                ⟨"x", [Cell.cFloat 3, Cell.cFloat 4], none⟩])
                        [false, false, true] ["id", "foo", "x"])⟩
    ⟨[], [], [], [], []⟩ "id" ["foo"]
    [⟨"id", [Cell.cInt 0], none⟩, ⟨"foo", [Cell.cInt 1], none⟩,
     ⟨"x", [Cell.cFloat 3, Cell.cFloat 4], none⟩]
    [false, false, true] ["id", "foo", "x"]
    ⟨none, some (.pBlob (.pdDf [⟨"id", [Cell.cInt 0], none⟩, ⟨"foo", [Cell.cInt 1], none⟩,
                                ⟨"x", [Cell.cFloat 3, Cell.cFloat 4], none⟩])
                        [false, false, true] ["id", "foo", "x"])⟩
    "pickle" 0 rfl rfl rfl rfl rfl

end OpenML
